import Mathlib

/-!
Shallow embedding of the Ton0racle price-oracle core:
the `PriceOracle` aggregation engine and update gate, the `OracleBase`
lifecycle controller, and `DataFetcher.validatePriceData`.

Modelling conventions:
* JavaScript numbers are modelled as exact rationals (`ℚ`).  Where the code
  divides by zero, JavaScript produces `NaN` or `±Infinity`, and every
  comparison `NaN <= t` / `Infinity <= t` (finite `t`) is `false`; the model
  makes those branches explicit instead of using Lean's `x / 0 = 0`.
* `Math.sqrt` has no rational counterpart, so the model carries the variance
  (the square of the code's standard deviation) and phrases the one comparison
  the code performs against the standard deviation on squares, which is exact.
* Asynchronous I/O (HTTP fetches, the TON client, timers) is external to the
  verified core; its outcome enters the model as an explicit argument, and the
  controller state (`isRunning`, the pending timer, the counters) is threaded
  explicitly.
-/

namespace TonOracle

/-- One source observation (src/src/types/price.ts, `PriceData`).
Optional JS fields are `Option ℚ`. -/
structure PriceData where
  base : String
  quote : String
  price : ℚ
  timestamp : ℚ
  source : String
  volume24h : Option ℚ
  change24h : Option ℚ
  marketCap : Option ℚ
  confidence : Option ℚ
deriving DecidableEq, Repr

/-- Input of `DataFetcher.validatePriceData` (a `Partial<PriceData>`):
`base`/`quote` may be the empty string (JS falsy, covering `undefined` and
`""`), `price : Option ℚ` is `none` when `typeof data.price !== 'number'`,
and `timestamp`/`confidence` may be absent. -/
structure PartialPriceData where
  base : String
  quote : String
  price : Option ℚ
  timestamp : Option ℚ
  volume24h : Option ℚ
  change24h : Option ℚ
  marketCap : Option ℚ
  confidence : Option ℚ
deriving DecidableEq, Repr

/-- Embedding of `DataFetcher.validatePriceData` (src/src/services/DataFetcher.ts:170-194).
`name` is the fetcher's `this.name`; `now` models `Date.now()`.
JS truthiness: `!data.base` is `base = ""`, `!data.timestamp` is absence or
`0`, and `data.confidence || 100` replaces an absent or zero confidence by
`100`. -/
def validatePriceData (name : String) (now : ℚ) (data : PartialPriceData) :
    Except String PriceData :=
  match data.price with
  | none => Except.error "Invalid price data structure"
  | some p =>
    if data.base = "" ∨ data.quote = "" then
      Except.error "Invalid price data structure"
    else if p ≤ 0 then
      Except.error "Price must be positive"
    else
      Except.ok
        { base := data.base
          quote := data.quote
          price := p
          timestamp :=
            match data.timestamp with
            | none => now
            | some t => if t = 0 then now else t
          source := name
          volume24h := data.volume24h
          change24h := data.change24h
          marketCap := data.marketCap
          confidence :=
            some (match data.confidence with
              | none => 100
              | some c => if c = 0 then 100 else c) }

/-- A configured trading pair (src/src/types/price.ts, `TradingPair`). -/
structure TradingPair where
  base : String
  quote : String
  symbol : String
  isActive : Bool
  minPrice : ℚ
  maxPrice : ℚ
  decimalPlaces : ℕ
deriving DecidableEq, Repr

/-- Aggregation method of `PriceOracleConfig.aggregationMethod`. -/
inductive AggregationMethod
  | median
  | weighted
  | average
deriving DecidableEq, Repr

/-- Per-source configuration; only the fields the aggregation engine reads.
`weight : Option ℚ` models a possibly-unset `weight`; the code reads it as
`sourceConfig?.weight || 1` (falsy, including `0`, becomes `1`). -/
structure PriceSourceConfig where
  name : String
  enabled : Bool
  weight : Option ℚ
deriving DecidableEq, Repr

/-- Model of `PriceOracleConfig` (src/src/types/price.ts), restricted to the fields the
aggregation engine and update gate read. -/
structure PriceOracleConfig where
  supportedPairs : List TradingPair
  sources : List PriceSourceConfig
  aggregationMethod : AggregationMethod
  outlierThreshold : ℚ
  minSourcesRequired : ℕ
  maxPriceAge : ℚ
  deviationThreshold : ℚ
deriving DecidableEq, Repr

/-- Model of the `OracleData<PriceData>` wrapper (value, timestamp, source). -/
structure OracleData where
  value : PriceData
  timestamp : ℚ
  source : String
deriving DecidableEq, Repr

/-- The aggregate the engine publishes (`AggregatedPriceData`).
The code additionally stores `standardDeviation := Math.sqrt(variance)`,
`confidence := this.calculateConfidence(data)` (which divides that square
root by the mean) and `outliers := []`.  The square root of a rational is
irrational in general, so those two real-valued report fields are not carried
here; no modelled claim reads them, and the confidence formula itself is
modelled separately by `calculateConfidence` below exactly as the code writes
it, over its standard-deviation and mean inputs. -/
structure AggregatedPriceData where
  base : String
  quote : String
  price : ℚ
  timestamp : ℚ
  sources : List String
  sourceCount : ℕ
deriving DecidableEq, Repr

/-- Pair key `` `${base}/${quote}` `` of an observation. -/
def dataPairKey (pd : PriceData) : String := pd.base ++ "/" ++ pd.quote

/-- Pair key of an aggregate. -/
def aggPairKey (a : AggregatedPriceData) : String := a.base ++ "/" ++ a.quote

/-- One insertion step of `groupDataByPair`: append `d` to the group of `key`,
creating the group at the end when absent (JS `Map` insertion order). -/
def insertGrouped (key : String) (d : OracleData) :
    List (String × List OracleData) → List (String × List OracleData)
  | [] => [(key, [d])]
  | (k, ds) :: rest =>
    if k = key then (k, ds ++ [d]) :: rest
    else (k, ds) :: insertGrouped key d rest

/-- Embedding of `PriceOracle.groupDataByPair` (src/generate-wallet.js:458-472): group the
fetched observations by the pair key of their `value`, preserving first-seen
key order and per-key arrival order. -/
def groupDataByPair (data : List OracleData) : List (String × List OracleData) :=
  data.foldl (fun acc d => insertGrouped (dataPairKey d.value) d acc) []

/-- Mean used by `calculateStandardDeviation` and friends:
`values.reduce((sum, val) => sum + val, 0) / values.length`. -/
def meanOf (values : List ℚ) : ℚ := values.sum / values.length

/-- The variance computed inside `PriceOracle.calculateStandardDeviation`
(src/generate-wallet.js:548-553).  The code returns `Math.sqrt` of this; the
model keeps the rational variance and compares on squares (see
`zScoreWithin`). -/
def varianceOf (values : List ℚ) : ℚ :=
  let mean := meanOf values
  (values.map (fun val => (val - mean) ^ 2)).sum / values.length

/-- The filter test of `removeOutliers`:
`Math.abs((price - mean) / stdDev) <= threshold` with
`stdDev = Math.sqrt(variance)`.
When `variance = 0` the JS quotient is `NaN` (price = mean: `0/0`) or
`±Infinity`, and both `NaN <= threshold` and `Infinity <= threshold` are
`false`, so the observation is dropped.  When `variance > 0`,
`|x| / Math.sqrt v <= t  ↔  0 ≤ t ∧ x^2 ≤ t^2 * v`, which avoids the
irrational square root exactly. -/
def zScoreWithin (price mean variance threshold : ℚ) : Bool :=
  if variance = 0 then false
  else decide (0 ≤ threshold ∧ (price - mean) ^ 2 ≤ threshold ^ 2 * variance)

/-- Embedding of `PriceOracle.removeOutliers` (src/generate-wallet.js:474-486): identity on
groups of at most two observations, otherwise keep the observations whose
z-score passes `zScoreWithin` against the configured threshold. -/
def removeOutliers (threshold : ℚ) (data : List OracleData) : List OracleData :=
  if data.length ≤ 2 then data
  else
    let prices := data.map (fun d => d.value.price)
    let mean := meanOf prices
    let variance := varianceOf prices
    data.filter (fun d => zScoreWithin d.value.price mean variance threshold)

/-- Embedding of `PriceOracle.calculateMedian` (src/generate-wallet.js:523-531): sort
ascending (`.sort((a, b) => a - b)`), take the middle element for odd length
and the mean of the two middle elements for even length. -/
def calculateMedian (values : List ℚ) : ℚ :=
  let sorted := values.insertionSort (· ≤ ·)
  let mid := sorted.length / 2
  if sorted.length % 2 = 0 then
    (sorted.getD (mid - 1) 0 + sorted.getD mid 0) / 2
  else
    sorted.getD mid 0

/-- Weight of a source: `sourceConfig?.weight || 1` — a missing source entry,
a missing weight, or a weight of `0` all yield `1`. -/
def weightFor (cfg : PriceOracleConfig) (sourceName : String) : ℚ :=
  match cfg.sources.find? (fun s => s.name == sourceName) with
  | none => 1
  | some sc =>
    match sc.weight with
    | none => 1
    | some w => if w = 0 then 1 else w

/-- Embedding of `PriceOracle.calculateWeightedAverage` (src/generate-wallet.js:533-546). -/
def calculateWeightedAverage (cfg : PriceOracleConfig) (data : List OracleData) : ℚ :=
  let acc := data.foldl
    (fun acc d =>
      let w := weightFor cfg d.source
      (acc.1 + w, acc.2 + d.value.price * w))
    ((0 : ℚ), (0 : ℚ))
  if 0 < acc.1 then acc.2 / acc.1 else 0

/-- Embedding of `Math.max(...timestamps)`; with no arguments JS yields `-Infinity`, but
every caller passes a non-empty list. -/
def listMax : List ℚ → ℚ
  | [] => 0
  | t :: ts => ts.foldl max t

/-- First-occurrence deduplication, the behaviour of `[...new Set(sources)]`. -/
def dedupKeepFirst (l : List String) : List String :=
  go l []
where
  go : List String → List String → List String
    | [], _ => []
    | x :: xs, seen =>
      if x ∈ seen then go xs seen else x :: go xs (x :: seen)

/-- Embedding of `PriceOracle.aggregatePrices` (src/generate-wallet.js:488-521), minus the
two real-valued report fields documented on `AggregatedPriceData`.  The `[]`
branch is unreachable (the caller guarantees a non-empty cleaned group; JS
would crash dereferencing `data[0]`). -/
def aggregatePrices (cfg : PriceOracleConfig) (data : List OracleData) :
    AggregatedPriceData :=
  match data with
  | [] => { base := "", quote := "", price := 0, timestamp := 0, sources := [], sourceCount := 0 }
  | first :: _ =>
    let prices := data.map (fun d => d.value.price)
    let sources := data.map (fun d => d.source)
    let timestamps := data.map (fun d => d.value.timestamp)
    let aggregatedPrice :=
      match cfg.aggregationMethod with
      | AggregationMethod.median => calculateMedian prices
      | AggregationMethod.weighted => calculateWeightedAverage cfg data
      | AggregationMethod.average => prices.sum / prices.length
    { base := first.value.base
      quote := first.value.quote
      price := aggregatedPrice
      timestamp := listMax timestamps
      sources := dedupKeepFirst sources
      sourceCount := data.length }

/-- Lookup in the `lastPrices` map, modelled as an insertion-ordered
association list. -/
def lookupAssoc (key : String) :
    List (String × AggregatedPriceData) → Option AggregatedPriceData
  | [] => none
  | (k, v) :: rest => if k = key then some v else lookupAssoc key rest

/-- Embedding of `lastPrices.set(key, v)`: overwrite in place, or append a new key. -/
def setAssoc (key : String) (v : AggregatedPriceData) :
    List (String × AggregatedPriceData) → List (String × AggregatedPriceData)
  | [] => [(key, v)]
  | (k, w) :: rest =>
    if k = key then (k, v) :: rest
    else (k, w) :: setAssoc key v rest

/-- The per-pair loop body of `PriceOracle.processData`
(src/generate-wallet.js:346-369): for each grouped pair in order, skip it when
the pair is not configured, the group is empty, or the post-outlier-removal
count is below `minSourcesRequired`; otherwise aggregate, record the result,
and store it into `lastPrices`.  Returns the collected results (in order) and
the updated `lastPrices`. -/
def processPairs (cfg : PriceOracleConfig) :
    List (String × List OracleData) → List (String × AggregatedPriceData) →
    List AggregatedPriceData × List (String × AggregatedPriceData)
  | [], lastPrices => ([], lastPrices)
  | entry :: rest, lastPrices =>
    match cfg.supportedPairs.find? (fun p => p.base ++ "/" ++ p.quote == entry.1) with
    | none => processPairs cfg rest lastPrices
    | some _ =>
      if entry.2.length = 0 then processPairs cfg rest lastPrices
      else
        let cleanedData := removeOutliers cfg.outlierThreshold entry.2
        if cleanedData.length < cfg.minSourcesRequired then
          processPairs cfg rest lastPrices
        else
          let aggregatedPrice := aggregatePrices cfg cleanedData
          let res := processPairs cfg rest (setAssoc entry.1 aggregatedPrice lastPrices)
          (aggregatedPrice :: res.1, res.2)

/-- Embedding of `PriceOracle.processData` (src/generate-wallet.js:342-378): group, run the
per-pair loop, then return the first aggregated result — or throw
`ValidationError` when no pair produced one.  The state argument and result
thread `this.lastPrices`. -/
def processData (cfg : PriceOracleConfig)
    (lastPrices : List (String × AggregatedPriceData)) (data : List OracleData) :
    Except String (AggregatedPriceData × List (String × AggregatedPriceData)) :=
  let res := processPairs cfg (groupDataByPair data) lastPrices
  match res.1 with
  | [] => Except.error "No valid aggregated price data available"
  | r :: _ => Except.ok (r, res.2)

/-- Embedding of `PriceOracle.shouldUpdate` (src/generate-wallet.js:571-574):
`Math.abs((newPrice - oldPrice) / oldPrice) * 100 >= deviationThreshold`. -/
def shouldUpdate (cfg : PriceOracleConfig) (oldPrice newPrice : ℚ) : Bool :=
  let changePercent := |(newPrice - oldPrice) / oldPrice| * 100
  decide (cfg.deviationThreshold ≤ changePercent)

/-- Result of one `submitToBlockchain` call: the code returns the string
`'skipped'` when the gate withholds the commit, and the transaction hash
otherwise.  The hash comes from the external TON client (modelled as
succeeding), so the model records only which branch was taken. -/
inductive SubmitResult
  | skipped
  | committed
deriving DecidableEq, Repr

/-- Embedding of `PriceOracle.submitToBlockchain` (src/generate-wallet.js:380-422): read
`this.lastPrices.get(pairKey)` and skip when a last price exists and
`shouldUpdate` is false; otherwise send the transaction. -/
def submitToBlockchain (cfg : PriceOracleConfig)
    (lastPrices : List (String × AggregatedPriceData))
    (processedData : AggregatedPriceData) : SubmitResult :=
  match lookupAssoc (aggPairKey processedData) lastPrices with
  | some lastPrice =>
    if shouldUpdate cfg lastPrice.price processedData.price then SubmitResult.committed
    else SubmitResult.skipped
  | none => SubmitResult.committed

/-- Embedding of `PriceOracle.calculateConfidence` (src/generate-wallet.js:555-569).
`count` is `data.length`; `stdDev` and `mean` are the values the code derives
from the data (`stdDev` via `Math.sqrt`, hence passed in rather than
recomputed rationally — the formula below is exactly what the code then
evaluates). -/
def calculateConfidence (minSourcesRequired count : ℕ) (stdDev mean : ℚ) : ℚ :=
  let baseConfidence := min ((count : ℚ) / (minSourcesRequired : ℚ)) 1 * 100
  let coefficient := stdDev / mean
  let variancePenalty := min (coefficient * 50) 30
  max (baseConfidence - variancePenalty) 0

/-- The confidence formula as the specification words it (spec §4.2 step 7):
`base = min(cleanedCount / minSourcesRequired, 1) × 100`;
`penalty = min((stddev/mean) × 50, 30)`; `confidence = max(base - penalty, 0)`.
Stated from the spec, to be compared with `calculateConfidence`. -/
def confidenceSpecFormula (cleanedCount minSourcesRequired : ℕ) (stddev mean : ℚ) : ℚ :=
  max (min ((cleanedCount : ℚ) / (minSourcesRequired : ℚ)) 1 * 100
        - min (stddev / mean * 50) 30) 0

/-- Model of `OracleConfig` as built for the base class (src/generate-wallet.js:169-177
and src/src/types), restricted to the fields the controller reads. -/
structure OracleConfig where
  updateInterval : ℚ
  deviationThreshold : ℚ
  minSources : ℕ
  maxOutlierDeviation : ℚ
  retryAttempts : ℕ
  enabled : Bool
deriving DecidableEq, Repr

/-- Mutable state of `OracleBase` (src/generate-wallet.js:593-601):
`isRunning`, whether `updateTimer` holds a pending timer, `errorCount` and
`totalUpdates`.  `lastUpdateTime` (a wall-clock reading) is not carried; no
modelled claim reads it. -/
structure ControllerState where
  isRunning : Bool
  timerArmed : Bool
  errorCount : ℕ
  totalUpdates : ℕ
deriving DecidableEq, Repr

/-- Embedding of `OracleBase.stop` (src/generate-wallet.js:652-668): a no-op when not
running; otherwise clear `isRunning` and cancel the pending timer. -/
def stop (st : ControllerState) : ControllerState :=
  if st.isRunning = false then st
  else { st with isRunning := false, timerArmed := false }

/-- Embedding of `OracleBase.scheduleUpdates` (src/generate-wallet.js:709-720): return
immediately when not running, otherwise arm the recurring timer. -/
def scheduleUpdates (st : ControllerState) : ControllerState :=
  if st.isRunning = false then st
  else { st with timerArmed := true }

/-- Embedding of `OracleBase.performUpdate` (src/generate-wallet.js:725-797).  The cycle
body (fetch-with-retry, validate, process, submit) is external to the
controller (abstract methods plus I/O); `outcome` is `none` when all four
steps succeeded and `some err` when one of them threw `err`.  On success the
counters advance and no error escapes; on failure `errorCount` is
incremented, and if it has reached `retryAttempts` the controller stops
itself and re-throws, otherwise the error is swallowed.  Returns the new
state and the error propagated to the caller, if any. -/
def performUpdate (cfg : OracleConfig) (st : ControllerState)
    (outcome : Option String) : ControllerState × Option String :=
  match outcome with
  | none => ({ st with totalUpdates := st.totalUpdates + 1 }, none)
  | some err =>
    let st1 := { st with errorCount := st.errorCount + 1 }
    if cfg.retryAttempts ≤ st1.errorCount then
      (stop st1, some err)
    else
      (st1, none)

/-- Embedding of `OracleBase.start` (src/generate-wallet.js:625-647): return (with a
warning, not an error) when already running or disabled; otherwise set
`isRunning`, run one immediate cycle, and — unless that cycle threw out of
`performUpdate` — arm the schedule.  `outcome` is the initial cycle's
outcome, as in `performUpdate`. -/
def start (cfg : OracleConfig) (st : ControllerState) (outcome : Option String) :
    ControllerState × Option String :=
  if st.isRunning then (st, none)
  else if cfg.enabled = false then (st, none)
  else
    let st1 := { st with isRunning := true }
    match performUpdate cfg st1 outcome with
    | (st2, some e) => (st2, some e)
    | (st2, none) => (scheduleUpdates st2, none)

/-- Embedding of `OracleBase.calculateRetryDelay` (src/generate-wallet.js:827-835):
`Math.floor(min(1000 * 2^(attempt-1), 30000) + jitter)` with
`jitter = Math.random() * 0.1 * delay`; `rand` models the `Math.random()`
draw, a value in `[0, 1)`. -/
def calculateRetryDelay (attempt : ℕ) (rand : ℚ) : ℤ :=
  let baseDelay : ℚ := 1000
  let maxDelay : ℚ := 30000
  let delay := min (baseDelay * 2 ^ (attempt - 1)) maxDelay
  let jitter := rand * (1 / 10) * delay
  Int.floor (delay + jitter)

/-! ### Concrete fixtures used by the claim theorems -/

/-- A configured BTC/USD pair. -/
def pairBTC : TradingPair :=
  { base := "BTC", quote := "USD", symbol := "BTCUSD", isActive := true,
    minPrice := 0, maxPrice := 1000000, decimalPlaces := 6 }

/-- A concrete engine configuration: median aggregation, outlier threshold 2
standard deviations, quorum 2, deviation threshold 1%. -/
def cfgPO : PriceOracleConfig :=
  { supportedPairs := [pairBTC], sources := [],
    aggregationMethod := AggregationMethod.median, outlierThreshold := 2,
    minSourcesRequired := 2, maxPriceAge := 300, deviationThreshold := 1 }

/-- A BTC/USD observation from source `src` at price `p`. -/
def mkObs (src : String) (p : ℚ) : OracleData :=
  { value := { base := "BTC", quote := "USD", price := p, timestamp := 1000,
               source := src, volume24h := none, change24h := none,
               marketCap := none, confidence := some 95 },
    timestamp := 1000, source := src }

/-- A concrete controller configuration with the hard-coded
`retryAttempts := 3` of src/generate-wallet.js:175. -/
def cfgCtl : OracleConfig :=
  { updateInterval := 60, deviationThreshold := 1, minSources := 2,
    maxOutlierDeviation := 2, retryAttempts := 3, enabled := true }

/-- A freshly started, running controller with no recorded failures. -/
def stRunning : ControllerState :=
  { isRunning := true, timerArmed := true, errorCount := 0, totalUpdates := 0 }

/-- A stopped controller with no recorded failures. -/
def stStopped : ControllerState :=
  { isRunning := false, timerArmed := false, errorCount := 0, totalUpdates := 0 }

/-- A concrete fetcher payload: valid pair, positive price, absent timestamp,
explicitly reported confidence 0. -/
def dataW : PartialPriceData :=
  { base := "BTC", quote := "USDT", price := some 50000, timestamp := none,
    volume24h := none, change24h := none, marketCap := none, confidence := some 0 }
/-- Controller state after one failed cycle from `stRunning`. -/
def c3s1 : ControllerState := (performUpdate cfgCtl stRunning (some "f1")).1
/-- Controller state after a failed cycle and then a successful cycle. -/
def c3s2 : ControllerState := (performUpdate cfgCtl c3s1 none).1
/-- Controller state after failure, success, failure. -/
def c3s3 : ControllerState := (performUpdate cfgCtl c3s2 (some "f2")).1
/-- A running controller two failures deep (one short of the threshold 3). -/
def stTripped : ControllerState :=
  { isRunning := true, timerArmed := true, errorCount := 2, totalUpdates := 5 }

/-- The loop guard of `processData` for one grouped pair: the pair is
configured, the group is non-empty, and the post-outlier-removal count meets
`minSourcesRequired` — exactly the condition under which the loop aggregates
instead of skipping the pair. -/
def pairQualifies (cfg : PriceOracleConfig) (entry : String × List OracleData) : Prop :=
  (cfg.supportedPairs.find? (fun p => p.base ++ "/" ++ p.quote == entry.1)).isSome = true ∧
  entry.2.length ≠ 0 ∧
  cfg.minSourcesRequired ≤ (removeOutliers cfg.outlierThreshold entry.2).length

instance (cfg : PriceOracleConfig) (entry : String × List OracleData) :
    Decidable (pairQualifies cfg entry) := by
  unfold pairQualifies
  infer_instance

/-- The aggregate the first cycle produces for BTC/USD from prices 100 and
102 under `cfgPO` (median 101). -/
def aggC1 : AggregatedPriceData :=
  { base := "BTC", quote := "USD", price := 101, timestamp := 1000,
    sources := ["coingecko", "binance"], sourceCount := 2 }

/-! ### Claim theorems -/

/-- Auxiliary: `aggregatePrices` reports the cleaned group's size as
`sourceCount`. -/
theorem aggregatePrices_sourceCount (cfg : PriceOracleConfig) (data : List OracleData) :
    (aggregatePrices cfg data).sourceCount = data.length := by
  cases data <;> rfl

/-- Auxiliary: the per-pair loop of `processData` collects no aggregate
exactly when no grouped pair passes the quorum guard. -/
theorem processPairs_fst_nil_iff (cfg : PriceOracleConfig) :
    ∀ (gs : List (String × List OracleData)) (lp : List (String × AggregatedPriceData)),
      (processPairs cfg gs lp).1 = [] ↔ ∀ e ∈ gs, ¬ pairQualifies cfg e := by
  intro gs
  induction gs with
  | nil => intro lp; simp [processPairs]
  | cons e rest ih =>
    intro lp
    cases hf : cfg.supportedPairs.find? (fun p => p.base ++ "/" ++ p.quote == e.1) with
    | none =>
      have hq : ¬ pairQualifies cfg e := fun hq => by
        have h1 := hq.1
        rw [hf] at h1
        simp at h1
      simp [processPairs, hf, ih, List.forall_mem_cons, hq]
    | some pr =>
      by_cases hlen : e.2.length = 0
      · have hq : ¬ pairQualifies cfg e := fun hq => hq.2.1 hlen
        simp [processPairs, hf, hlen, ih, List.forall_mem_cons, hq]
      · by_cases hmin :
          (removeOutliers cfg.outlierThreshold e.2).length < cfg.minSourcesRequired
        · have hq : ¬ pairQualifies cfg e := fun hq => absurd hq.2.2 (not_le.mpr hmin)
          simp [processPairs, hf, hlen, hmin, ih, List.forall_mem_cons, hq]
        · have hq : pairQualifies cfg e := ⟨by rw [hf]; rfl, hlen, not_lt.mp hmin⟩
          simp [processPairs, hf, hlen, hmin, List.forall_mem_cons, hq]

/-- Auxiliary: every aggregate the per-pair loop emits meets the quorum
floor. -/
theorem processPairs_sourceCount_ge (cfg : PriceOracleConfig) :
    ∀ (gs : List (String × List OracleData)) (lp : List (String × AggregatedPriceData))
      (r : AggregatedPriceData), r ∈ (processPairs cfg gs lp).1 →
      cfg.minSourcesRequired ≤ r.sourceCount := by
  intro gs
  induction gs with
  | nil => intro lp r hr; simp [processPairs] at hr
  | cons e rest ih =>
    intro lp r hr
    cases hf : cfg.supportedPairs.find? (fun p => p.base ++ "/" ++ p.quote == e.1) with
    | none =>
      simp only [processPairs, hf] at hr
      exact ih _ _ hr
    | some pr =>
      simp only [processPairs, hf] at hr
      by_cases hlen : e.2.length = 0
      · rw [if_pos hlen] at hr
        exact ih _ _ hr
      · rw [if_neg hlen] at hr
        by_cases hmin :
          (removeOutliers cfg.outlierThreshold e.2).length < cfg.minSourcesRequired
        · rw [if_pos hmin] at hr
          exact ih _ _ hr
        · rw [if_neg hmin] at hr
          rcases List.mem_cons.mp hr with rfl | hmem
          · rw [aggregatePrices_sourceCount]
            exact not_lt.mp hmin
          · exact ih _ _ hmem

/-- C4 (amended): an aggregated observation is produced for a pair only if
its post-outlier-removal observation count is at least `minSourcesRequired`
(every emitted aggregate satisfies the floor), and a below-floor pair is
silently omitted: `processData` succeeds exactly when at least one grouped
pair passes the quorum guard — but when EVERY pair falls below the floor it
throws the `ValidationError` "No valid aggregated price data available"
instead of treating the cycle as a skip. -/
theorem C4_quorum_floor_and_skip (cfg : PriceOracleConfig)
    (lastPrices : List (String × AggregatedPriceData)) (data : List OracleData) :
    ((∃ x, processData cfg lastPrices data = Except.ok x) ↔
      ∃ e ∈ groupDataByPair data, pairQualifies cfg e) ∧
    (∀ r, r ∈ (processPairs cfg (groupDataByPair data) lastPrices).1 →
      cfg.minSourcesRequired ≤ r.sourceCount) ∧
    ((∀ e ∈ groupDataByPair data, ¬ pairQualifies cfg e) →
      processData cfg lastPrices data
        = Except.error "No valid aggregated price data available") := by
  have hnil := processPairs_fst_nil_iff cfg (groupDataByPair data) lastPrices
  refine ⟨?_, fun r => processPairs_sourceCount_ge cfg (groupDataByPair data) lastPrices r, ?_⟩
  · cases hres : (processPairs cfg (groupDataByPair data) lastPrices).1 with
    | nil =>
      simp only [processData, hres]
      constructor
      · rintro ⟨x, hx⟩
        exact absurd hx (by simp)
      · rintro ⟨e, he, hq⟩
        exact absurd hq ((hnil.mp hres) e he)
    | cons r rs =>
      simp only [processData, hres]
      constructor
      · intro _
        by_contra hno
        push_neg at hno
        have hn : (processPairs cfg (groupDataByPair data) lastPrices).1 = [] :=
          hnil.mpr hno
        rw [hres] at hn
        exact absurd hn (by simp)
      · intro _
        exact ⟨_, rfl⟩
  · intro hall
    have hn : (processPairs cfg (groupDataByPair data) lastPrices).1 = [] := hnil.mpr hall
    simp only [processData, hn]

/-- Witness for C4: under `cfgPO` (quorum 2) the two-source BTC/USD group
passes the guard and `processData` succeeds. -/
theorem C4_quorum_floor_and_skip_witness :
    (∃ e ∈ groupDataByPair [mkObs "coingecko" 100, mkObs "binance" 102],
      pairQualifies cfgPO e) ∧
    (∃ x, processData cfgPO [] [mkObs "coingecko" 100, mkObs "binance" 102]
      = Except.ok x) :=
  ⟨by decide,
   (C4_quorum_floor_and_skip cfgPO [] [mkObs "coingecko" 100, mkObs "binance" 102]).1.mpr
     (by decide)⟩

/-- C4 counterexample: with quorum 2 and a single BTC/USD observation, the
only pair is skipped, so nothing aggregates and `processData` throws the
`ValidationError` — the claim's "a skip never raises an error (... including
one where every pair falls below the floor)" fails on exactly that input. -/
theorem C4_counterexample_all_pairs_skipped_throws :
    processData cfgPO [] [mkObs "coingecko" 100]
      = Except.error "No valid aggregated price data available" := by
  rfl

/-- C1: the claim fails on the code.  On the very first cycle for BTC/USD —
`lastPrices` empty, i.e. no previous committed value — `processData` stores
the freshly aggregated observation into `this.lastPrices`
(src/generate-wallet.js:364) before `submitToBlockchain` reads the map back
(line 385); the gate therefore compares the new price 101 with itself, the
relative change is 0% < deviationThreshold = 1, and the commit is withheld:
`submitToBlockchain` returns 'skipped', although the claim requires an
unconditional commit for a first-ever observation. -/
theorem C1_first_observation_skipped :
    lookupAssoc "BTC/USD" [] = none ∧
    processData cfgPO [] [mkObs "coingecko" 100, mkObs "binance" 102]
      = Except.ok (aggC1, [("BTC/USD", aggC1)]) ∧
    submitToBlockchain cfgPO [("BTC/USD", aggC1)] aggC1 = SubmitResult.skipped := by
  have hkey : ("BTC" ++ "/" ++ "USD" : String) = "BTC/USD" := by decide
  refine ⟨rfl, ?_, ?_⟩
  · norm_num [processData, processPairs, groupDataByPair, insertGrouped, dataPairKey,
      mkObs, cfgPO, pairBTC, aggC1, removeOutliers, meanOf, varianceOf, zScoreWithin,
      aggregatePrices, calculateMedian, List.insertionSort, List.orderedInsert,
      listMax, dedupKeepFirst, dedupKeepFirst.go, setAssoc]
    decide
  · norm_num [submitToBlockchain, lookupAssoc, aggPairKey, aggC1, shouldUpdate,
      cfgPO, hkey]

/-- C2: the claim fails on the code.  For a group of three observations whose
prices are all identical (here 100, outlier threshold 2) the population
variance is indeed 0 — but the code then divides by the zero standard
deviation, the z-score is JavaScript `NaN` (`0/0`), `NaN <= threshold` is
`false`, and `removeOutliers` drops **every** observation instead of none:
the cleaned group is empty rather than equal to the input. -/
theorem C2_identical_prices_all_dropped (threshold : ℚ) :
    varianceOf [100, 100, 100] = 0 ∧
    removeOutliers threshold
        [mkObs "coingecko" 100, mkObs "binance" 100, mkObs "coinmarketcap" 100]
      = [] ∧
    [mkObs "coingecko" 100, mkObs "binance" 100, mkObs "coinmarketcap" 100] ≠ [] := by
  refine ⟨by norm_num [varianceOf, meanOf], ?_, by simp⟩
  norm_num [removeOutliers, meanOf, varianceOf, zScoreWithin, mkObs]

/-- C8: for every non-empty list of prices, `calculateMedian` returns the
middle element of any sorted permutation of the list when the length is odd,
and the arithmetic mean of the two middle elements when the length is even;
in particular `median [100, 200, 300] = 200` and `median [100, 200] = 150`. -/
theorem C8_median_sorted_characterization :
    (∀ (l s : List ℚ), l ≠ [] → l.Perm s → s.Sorted (· ≤ ·) →
      calculateMedian l =
        if s.length % 2 = 0 then
          (s.getD (s.length / 2 - 1) 0 + s.getD (s.length / 2) 0) / 2
        else s.getD (s.length / 2) 0) ∧
    calculateMedian [100, 200, 300] = 200 ∧ calculateMedian [100, 200] = 150 := by
  refine ⟨?_, ?_, ?_⟩
  · intro l s _ hperm hsorted
    have hs : s = l.insertionSort (· ≤ ·) :=
      List.eq_of_perm_of_sorted
        (hperm.symm.trans (List.perm_insertionSort _ l).symm) hsorted
        (List.sorted_insertionSort _ l)
    subst hs
    rfl
  · norm_num [calculateMedian, List.insertionSort, List.orderedInsert]
  · norm_num [calculateMedian, List.insertionSort, List.orderedInsert]

/-- Witness for C8 at the non-empty sorted list `[100, 200, 300]`. -/
theorem C8_median_witness :
    ([100, 200, 300] : List ℚ) ≠ [] ∧
    calculateMedian [100, 200, 300] =
      (if ([100, 200, 300] : List ℚ).length % 2 = 0 then
        (([100, 200, 300] : List ℚ).getD (([100, 200, 300] : List ℚ).length / 2 - 1) 0
          + ([100, 200, 300] : List ℚ).getD (([100, 200, 300] : List ℚ).length / 2) 0) / 2
      else ([100, 200, 300] : List ℚ).getD (([100, 200, 300] : List ℚ).length / 2) 0) :=
  ⟨by simp,
   C8_median_sorted_characterization.1 [100, 200, 300] [100, 200, 300]
     (by simp) (List.Perm.refl _) (by decide)⟩

/-- C9: for every attempt number `n ≥ 1` and every jitter draw
`rand ∈ [0, 1)`, the computed retry delay lies between
`base = min(1000 × 2^(n−1), 30000)` and `1.1 × base`. -/
theorem C9_retry_delay_bounds (attempt : ℕ) (rand : ℚ)
    (_hn : 1 ≤ attempt) (h2 : 0 ≤ rand) (h3 : rand < 1) :
    min ((1000 : ℚ) * 2 ^ (attempt - 1)) 30000 ≤ (calculateRetryDelay attempt rand : ℚ) ∧
    (calculateRetryDelay attempt rand : ℚ)
      ≤ 11 / 10 * min ((1000 : ℚ) * 2 ^ (attempt - 1)) 30000 := by
  have hB : ((min (1000 * 2 ^ (attempt - 1)) 30000 : ℤ) : ℚ)
      = min ((1000 : ℚ) * 2 ^ (attempt - 1)) 30000 := by
    push_cast [Int.cast_min]
    ring_nf
  set b : ℤ := min (1000 * 2 ^ (attempt - 1)) 30000 with hbdef
  have hFloor : calculateRetryDelay attempt rand
      = Int.floor ((b : ℚ) + rand * (1 / 10) * (b : ℚ)) := by
    simp only [calculateRetryDelay, hB]
  have hBpos : (0 : ℚ) < (b : ℚ) := by
    rw [hB]
    exact lt_min (by positivity) (by norm_num)
  have hj0 : 0 ≤ rand * (1 / 10) * (b : ℚ) := by positivity
  have hj1 : rand * (1 / 10) * (b : ℚ) ≤ 1 / 10 * (b : ℚ) := by nlinarith
  constructor
  · rw [← hB, hFloor]
    exact_mod_cast Int.le_floor.mpr (le_add_of_nonneg_right hj0)
  · rw [← hB, hFloor]
    have h4 := Int.floor_le ((b : ℚ) + rand * (1 / 10) * (b : ℚ))
    linarith

/-- Witness for C9 at attempt 1 with jitter draw 0. -/
theorem C9_retry_delay_bounds_witness :
    1 ≤ 1 ∧ (0 : ℚ) ≤ 0 ∧ (0 : ℚ) < 1 ∧
    (min ((1000 : ℚ) * 2 ^ (1 - 1)) 30000 ≤ (calculateRetryDelay 1 0 : ℚ) ∧
     (calculateRetryDelay 1 0 : ℚ) ≤ 11 / 10 * min ((1000 : ℚ) * 2 ^ (1 - 1)) 30000) :=
  ⟨le_rfl, le_rfl, by norm_num, C9_retry_delay_bounds 1 0 le_rfl le_rfl (by norm_num)⟩

/-- C7: the code's confidence score equals the specification formula
`max(min(cleanedCount / minSourcesRequired, 1) × 100 − min((stddev/mean) × 50, 30), 0)`;
holding the cleaned source count fixed it is monotonically non-increasing in
the coefficient of variation `stddev / mean`, and it is never negative. -/
theorem C7_confidence_formula_monotone_nonneg
    (minS count : ℕ) (s1 m1 s2 m2 : ℚ) :
    calculateConfidence minS count s1 m1 = confidenceSpecFormula count minS s1 m1 ∧
    (s1 / m1 ≤ s2 / m2 →
      calculateConfidence minS count s2 m2 ≤ calculateConfidence minS count s1 m1) ∧
    0 ≤ calculateConfidence minS count s1 m1 := by
  refine ⟨rfl, ?_, le_max_right _ _⟩
  intro hcov
  simp only [calculateConfidence]
  have hpen : min (s1 / m1 * 50) 30 ≤ min (s2 / m2 * 50) 30 :=
    min_le_min (by linarith) le_rfl
  exact max_le_max (sub_le_sub_left hpen _) le_rfl

/-- Witness for C7: a larger coefficient of variation (2/100 against 1/100)
does not increase the confidence. -/
theorem C7_confidence_witness :
    (1 : ℚ) / 100 ≤ 2 / 100 ∧
    calculateConfidence 3 3 2 100 ≤ calculateConfidence 3 3 1 100 :=
  ⟨by norm_num, (C7_confidence_formula_monotone_nonneg 3 3 1 100 2 100).2.1 (by norm_num)⟩

/-- C10: every `PriceData` that `validatePriceData` returns has a strictly
positive price (a missing/non-numeric or non-positive price yields an error
instead), a non-zero timestamp (a falsy timestamp is replaced by the current
time, which is positive), and a confidence of 100 whenever the source
reported a falsy confidence — including an explicit confidence of 0. -/
theorem C10_validatePriceData_guarantees
    (name : String) (now : ℚ) (data : PartialPriceData) (hnow : 0 < now) :
    (∀ pd, validatePriceData name now data = Except.ok pd →
      0 < pd.price ∧ pd.timestamp ≠ 0 ∧
      ((data.confidence = none ∨ data.confidence = some 0) → pd.confidence = some 100)) ∧
    ((data.price = none ∨ ∃ p, data.price = some p ∧ p ≤ 0) →
      ∃ msg, validatePriceData name now data = Except.error msg) := by
  constructor
  · intro pd hok
    cases hp : data.price with
    | none => simp [validatePriceData, hp] at hok
    | some p =>
      simp only [validatePriceData, hp] at hok
      split_ifs at hok with hbq hple
      obtain rfl := (Except.ok.injEq _ _).mp hok.symm
      refine ⟨by linarith [not_le.mp hple], ?_, ?_⟩
      · cases ht : data.timestamp with
        | none => simpa [ht] using hnow.ne'
        | some t =>
          by_cases ht0 : t = 0
          · simpa [ht, ht0] using hnow.ne'
          · simp [ht, ht0]
      · intro hconf
        rcases hconf with hc | hc <;> simp [hc]
  · intro hbad
    rcases hbad with hp | ⟨p, hp, hple⟩
    · exact ⟨"Invalid price data structure", by simp [validatePriceData, hp]⟩
    · simp only [validatePriceData, hp]
      by_cases h1 : data.base = "" ∨ data.quote = ""
      · refine ⟨"Invalid price data structure", ?_⟩
        rw [if_pos h1]
      · refine ⟨"Price must be positive", ?_⟩
        rw [if_neg h1, if_pos hple]

/-- Witness for C10 at `dataW` with a positive current time. -/
theorem C10_validatePriceData_witness :
    0 < (1700000000000 : ℚ) ∧
    ((∀ pd, validatePriceData "binance" 1700000000000 dataW = Except.ok pd →
        0 < pd.price ∧ pd.timestamp ≠ 0 ∧
        ((dataW.confidence = none ∨ dataW.confidence = some 0) → pd.confidence = some 100)) ∧
     ((dataW.price = none ∨ ∃ p, dataW.price = some p ∧ p ≤ 0) →
        ∃ msg, validatePriceData "binance" 1700000000000 dataW = Except.error msg)) :=
  ⟨by norm_num,
   C10_validatePriceData_guarantees "binance" 1700000000000 dataW (by norm_num)⟩

/-- C3 counterexample: with `retryAttempts = 3`, after one failed cycle and
one successful cycle the consecutive-failure counter is 1, not 0 — the
success path of `performUpdate` never touches `errorCount`
(src/generate-wallet.js:754-766) — and two further failures then reach the
threshold and stop the oracle with the error re-raised, so pre-success
failures do combine with a later failure to trip the circuit breaker,
contrary to the claim. -/
theorem C3_counterexample_success_does_not_reset :
    c3s2.errorCount = 1 ∧ c3s2.errorCount ≠ 0 ∧
    (performUpdate cfgCtl c3s3 (some "f3")).1.isRunning = false ∧
    (performUpdate cfgCtl c3s3 (some "f3")).2 = some "f3" := by
  refine ⟨rfl, by decide, rfl, rfl⟩

/-- C3 (amended): a successful cycle leaves `errorCount` unchanged — the
controller never resets it, so the counter is cumulative across successes —
and a successful cycle itself neither stops the controller nor raises an
error. -/
theorem C3_amended_success_keeps_error_count (cfg : OracleConfig) (st : ControllerState) :
    (performUpdate cfg st none).1.errorCount = st.errorCount ∧
    (performUpdate cfg st none).1.isRunning = st.isRunning ∧
    (performUpdate cfg st none).1.timerArmed = st.timerArmed ∧
    (performUpdate cfg st none).2 = none :=
  ⟨rfl, rfl, rfl, rfl⟩

/-- C5: when a running controller's cycle fails and the incremented failure
counter reaches `retryAttempts`, the controller transitions to stopped (the
pending timer is cancelled, and `scheduleUpdates` on the resulting state arms
nothing, so no further scheduled cycle runs) and the triggering error is
re-raised to the caller; a failure with the counter still below the
threshold leaves the controller running with its timer, records the failure,
and propagates no error. -/
theorem C5_circuit_breaker (cfg : OracleConfig) (st : ControllerState) (err : String)
    (hrun : st.isRunning = true) :
    (cfg.retryAttempts ≤ st.errorCount + 1 →
      (performUpdate cfg st (some err)).1.isRunning = false ∧
      (performUpdate cfg st (some err)).1.timerArmed = false ∧
      (performUpdate cfg st (some err)).2 = some err ∧
      scheduleUpdates (performUpdate cfg st (some err)).1
        = (performUpdate cfg st (some err)).1) ∧
    (st.errorCount + 1 < cfg.retryAttempts →
      (performUpdate cfg st (some err)).1.isRunning = st.isRunning ∧
      (performUpdate cfg st (some err)).1.timerArmed = st.timerArmed ∧
      (performUpdate cfg st (some err)).1.errorCount = st.errorCount + 1 ∧
      (performUpdate cfg st (some err)).2 = none) := by
  constructor
  · intro hth
    simp [performUpdate, stop, scheduleUpdates, hth, hrun]
  · intro hlt
    have hnc : ¬ (cfg.retryAttempts ≤ st.errorCount + 1) := not_le.mpr hlt
    simp [performUpdate, hnc]

/-- Witness for C5: from `stTripped` the next failure reaches the threshold,
stops the controller and re-raises the error. -/
theorem C5_circuit_breaker_witness :
    stTripped.isRunning = true ∧
    cfgCtl.retryAttempts ≤ stTripped.errorCount + 1 ∧
    ((performUpdate cfgCtl stTripped (some "boom")).1.isRunning = false ∧
     (performUpdate cfgCtl stTripped (some "boom")).1.timerArmed = false ∧
     (performUpdate cfgCtl stTripped (some "boom")).2 = some "boom" ∧
     scheduleUpdates (performUpdate cfgCtl stTripped (some "boom")).1
       = (performUpdate cfgCtl stTripped (some "boom")).1) :=
  ⟨rfl, by decide, (C5_circuit_breaker cfgCtl stTripped "boom" rfl).1 (by decide)⟩

/-- C6 counterexample: starting a stopped oracle whose initial cycle fails
below the breaker threshold (`errorCount` becomes 1 < `retryAttempts` = 3)
leaves the oracle RUNNING with the recurring schedule armed and surfaces no
error to the caller of `start()` — the failure was swallowed inside
`performUpdate` — whereas the claim says the oracle remains stopped and the
error is surfaced. -/
theorem C6_counterexample_failed_initial_cycle_still_running :
    (start cfgCtl stStopped (some "fetch failed")).1.isRunning = true ∧
    (start cfgCtl stStopped (some "fetch failed")).1.timerArmed = true ∧
    (start cfgCtl stStopped (some "fetch failed")).2 = none := by
  refine ⟨rfl, rfl, rfl⟩

/-- C6 (amended): `start()` returns without error and leaves the state
unchanged when the oracle is already running (a logged warning, not a
rejection) or disabled; otherwise it marks the oracle running and performs
one immediate cycle.  If that initial cycle fails with the incremented
failure counter reaching `retryAttempts`, the oracle ends stopped with no
schedule armed and the error propagates to the caller of `start()`; any
other initial failure is swallowed (the schedule is armed and the oracle
ends running), and an initial success likewise ends running with the
schedule armed. -/
theorem C6_start_behaviour (cfg : OracleConfig) (st : ControllerState) (o : Option String) :
    (st.isRunning = true → start cfg st o = (st, none)) ∧
    (cfg.enabled = false → start cfg st o = (st, none)) ∧
    (st.isRunning = false → cfg.enabled = true →
      (∀ e, o = some e → cfg.retryAttempts ≤ st.errorCount + 1 →
        (start cfg st o).1.isRunning = false ∧
        (start cfg st o).1.timerArmed = false ∧
        (start cfg st o).2 = some e) ∧
      (∀ e, o = some e → st.errorCount + 1 < cfg.retryAttempts →
        (start cfg st o).1.isRunning = true ∧
        (start cfg st o).1.timerArmed = true ∧
        (start cfg st o).2 = none) ∧
      (o = none →
        (start cfg st o).1.isRunning = true ∧
        (start cfg st o).1.timerArmed = true ∧
        (start cfg st o).2 = none)) := by
  refine ⟨?_, ?_, ?_⟩
  · intro hrun
    simp [start, hrun]
  · intro hen
    by_cases hrun : st.isRunning
    · simp [start, hrun]
    · simp [start, hrun, hen]
  · intro hrun hen
    refine ⟨?_, ?_, ?_⟩
    · rintro e rfl hth
      simp [start, hrun, hen, performUpdate, stop, scheduleUpdates, hth]
    · rintro e rfl hlt
      have hnc : ¬ (cfg.retryAttempts ≤ st.errorCount + 1) := not_le.mpr hlt
      simp [start, hrun, hen, performUpdate, stop, scheduleUpdates, hnc]
    · rintro rfl
      simp [start, hrun, hen, performUpdate, scheduleUpdates]

/-- Witness for C6 at a stopped, enabled controller whose initial cycle fails
below the threshold: it ends up running with the schedule armed and no error. -/
theorem C6_start_behaviour_witness :
    stStopped.isRunning = false ∧ cfgCtl.enabled = true ∧
    stStopped.errorCount + 1 < cfgCtl.retryAttempts ∧
    ((start cfgCtl stStopped (some "boom")).1.isRunning = true ∧
     (start cfgCtl stStopped (some "boom")).1.timerArmed = true ∧
     (start cfgCtl stStopped (some "boom")).2 = none) :=
  ⟨rfl, rfl, by decide,
   ((C6_start_behaviour cfgCtl stStopped (some "boom")).2.2 rfl rfl).2.1
     "boom" rfl (by decide)⟩

end TonOracle
